import Mathlib

/-!
Shallow embedding of the data-access and identity layer of
`uw-pantry-lambda-rust`: entity ↔ DynamoDB-item mapping for `User` and
`Pantry` (src/models/user.rs, src/models/pantry.rs), the error taxonomy
(src/error.rs), the JWT issue/verify pair (src/auth/jwt.rs) and the
GraphQL resolvers `create_user`, `user_by_id`, `user_by_email`
(src/schema/mutation.rs, src/schema/query.rs).

External crates are modelled at the level the code uses them:
* `chrono::DateTime<Utc>` is modelled as a civil date-time at second
  precision (`DateTime` below); its `Display` impl (the format
  `YYYY-MM-DD HH:MM:SS UTC`) and its relaxed-RFC-3339 `FromStr` impl are
  modelled concretely by `DateTime.display` / `DateTime.parse`,
  restricted to zero-offset timestamps, which is the only shape this
  code ever produces or stores.
* the Argon2 password-hash digest is idealised as an injective function
  of (salt, password), and the PHC string syntax `$argon2$salt$digest`
  is modelled with an executable encoder/parser pair.
* `jsonwebtoken` encode/decode is modelled as a MAC over the claims
  with the default 60-second expiry leeway.
Effects (current time, random UUID/salt, the DynamoDB round trip, the
GraphQL context) are passed as explicit parameters.
-/

namespace UwPantry

/-! ## Fixed-width decimal printing and reading (timestamp digits) -/

/-- Print `n` as exactly `w` decimal digits, most significant first
(zero padded).  Model of the padded `%Y`/`%m`/… formatting done by
chrono's `Display` for `DateTime<Utc>`. -/
def padDigits : Nat → Nat → List Char
  | 0, _ => []
  | w + 1, n => Nat.digitChar (n / 10 ^ w) :: padDigits w (n % 10 ^ w)

/-- Read exactly `w` decimal digits from the front of the character
list, accumulating into `acc`; fails if a non-digit (or the end) is
met. -/
def readDigits : Nat → Nat → List Char → Option (Nat × List Char)
  | 0, acc, l => some (acc, l)
  | _ + 1, _, [] => none
  | w + 1, acc, c :: l =>
      if c.isDigit then readDigits w (acc * 10 + (c.toNat - 48)) l else none

/-! ## Model of `chrono::DateTime<Utc>` at second precision -/

/-- Civil UTC date-time at second precision; stands in for
`chrono::DateTime<Utc>` (whose sub-second part chrono prints and parses
exactly, so dropping it loses no round-trip behaviour). -/
structure DateTime where
  year : Nat
  month : Nat
  day : Nat
  hour : Nat
  minute : Nat
  second : Nat
deriving DecidableEq, Repr

/-- Field ranges of a `chrono` datetime this model cares about. -/
def DateTime.Valid (d : DateTime) : Prop :=
  d.year ≤ 9999 ∧ 1 ≤ d.month ∧ d.month ≤ 12 ∧ 1 ≤ d.day ∧ d.day ≤ 31 ∧
    d.hour ≤ 23 ∧ d.minute ≤ 59 ∧ d.second ≤ 59

instance (d : DateTime) : Decidable d.Valid := by
  unfold DateTime.Valid
  infer_instance

/-- The characters of chrono's `Display` output for `DateTime<Utc>`:
`"YYYY-MM-DD HH:MM:SS UTC"`. -/
def DateTime.displayChars (d : DateTime) : List Char :=
  padDigits 4 d.year ++ ('-' ::
  (padDigits 2 d.month ++ ('-' ::
  (padDigits 2 d.day ++ (' ' ::
  (padDigits 2 d.hour ++ (':' ::
  (padDigits 2 d.minute ++ (':' ::
  (padDigits 2 d.second ++ " UTC".data))))))))))

/-- Model of `self.created_at.to_string()` (chrono `Display`). -/
def DateTime.display (d : DateTime) : String :=
  ⟨d.displayChars⟩

def expectChar (c : Char) : List Char → Option (List Char)
  | [] => none
  | x :: l => if x = c then some l else none

/-- chrono's relaxed RFC 3339 parser accepts `'T'` or `' '` between the
date and the time. -/
def expectSep : List Char → Option (List Char)
  | [] => none
  | x :: l => if x = ' ' ∨ x = 'T' then some l else none

/-- The time-zone tail accepted by the model: the zero-offset spellings
chrono's relaxed RFC 3339 parser allows (`Z`, a numeric zero offset, or
the name `UTC`, optionally preceded by a space). -/
def zoneTail (l : List Char) : Option Unit :=
  if l = " UTC".data ∨ l = "UTC".data ∨ l = "Z".data ∨ l = "z".data ∨
      l = "+00:00".data ∨ l = " +00:00".data then
    some ()
  else none

/-- Model of `s.parse::<DateTime<Utc>>()` (chrono's relaxed RFC 3339
`FromStr`), restricted to zero-offset time zones. -/
def DateTime.parseChars (l : List Char) : Option DateTime := do
  let (y, l) ← readDigits 4 0 l
  let l ← expectChar '-' l
  let (mo, l) ← readDigits 2 0 l
  let l ← expectChar '-' l
  let (da, l) ← readDigits 2 0 l
  let l ← expectSep l
  let (h, l) ← readDigits 2 0 l
  let l ← expectChar ':' l
  let (mi, l) ← readDigits 2 0 l
  let l ← expectChar ':' l
  let (s, l) ← readDigits 2 0 l
  let _ ← zoneTail l
  if 1 ≤ mo ∧ mo ≤ 12 ∧ 1 ≤ da ∧ da ≤ 31 ∧ h ≤ 23 ∧ mi ≤ 59 ∧ s ≤ 59 then
    some ⟨y, mo, da, h, mi, s⟩
  else
    none

def DateTime.parse (s : String) : Option DateTime :=
  DateTime.parseChars s.data

/-! ## Model of DynamoDB attribute values and items -/

/-- `aws_sdk_dynamodb::types::AttributeValue`, restricted to the two
variants this crate uses: strings and nested maps. -/
inductive AttributeValue where
  | S : String → AttributeValue
  | M : (String → Option AttributeValue) → AttributeValue

/-- A DynamoDB item (`HashMap<String, AttributeValue>`), modelled by its
lookup function; `insert` is last-writer-wins like `HashMap::insert`. -/
def AttrMap : Type := String → Option AttributeValue

def AttrMap.empty : AttrMap := fun _ => none

def AttrMap.insert (m : AttrMap) (k : String) (v : AttributeValue) : AttrMap :=
  fun x => if x = k then some v else m x

/-- `AttributeValue::as_s(..).ok()`. -/
def AttributeValue.as_s : AttributeValue → Option String
  | .S s => some s
  | _ => none

/-- `AttributeValue::as_m(..).ok()`. -/
def AttributeValue.as_m : AttributeValue → Option AttrMap
  | .M m => some m
  | _ => none

/-- `item.get(k)?.as_s().ok()?`: the required-string-field read used
throughout the `from_item` functions. -/
def AttrMap.getS (m : AttrMap) (k : String) : Option String :=
  (m k).bind AttributeValue.as_s

/-! ## Model of src/error.rs -/

/-- `AppError` (src/error.rs). -/
inductive AppError where
  | DatabaseError : String → AppError
  | Unauthorized : String → AppError
  | Forbidden : String → AppError
  | ValidationError : String → AppError
  | NotFound : String → AppError
  | ExternalServiceError : String → AppError
  | InternalServerError : String → AppError
deriving DecidableEq, Repr

/-- `impl fmt::Display for AppError`. -/
def AppError.display : AppError → String
  | .DatabaseError msg => "Database error: " ++ msg
  | .Unauthorized msg => "Unauthorized: " ++ msg
  | .Forbidden msg => "Forbidden: " ++ msg
  | .ValidationError msg => "Validation error: " ++ msg
  | .NotFound msg => "Not found: " ++ msg
  | .ExternalServiceError msg => "External service error: " ++ msg
  | .InternalServerError msg => "Internal server error: " ++ msg

/-- An `async_graphql::Error` as this crate builds one: a message plus
the `code` and `status` extensions when they were set. -/
structure GqlError where
  message : String
  code : Option String
  status : Option Nat
deriving DecidableEq, Repr

/-- `AppError::to_graphql_error` (src/error.rs). -/
def AppError.to_graphql_error : AppError → GqlError
  | .ValidationError msg => ⟨msg, some "VALIDATION_ERROR", some 400⟩
  | .NotFound msg => ⟨msg, some "NOT_FOUND", some 404⟩
  | .Unauthorized msg => ⟨msg, some "UNAUTHORIZED", some 401⟩
  | .Forbidden msg => ⟨msg, some "FORBIDDEN", some 403⟩
  | .DatabaseError msg => ⟨msg, some "INTERNAL_SERVER_ERROR", some 500⟩
  | .ExternalServiceError msg => ⟨msg, some "INTERNAL_SERVER_ERROR", some 500⟩
  | .InternalServerError msg => ⟨msg, some "INTERNAL_SERVER_ERROR", some 500⟩

/-- The `From<impl Display>` conversion `async_graphql` applies when
`?` propagates a bare `AppError`: message only, no extensions. -/
def gqlOfDisplay (e : AppError) : GqlError :=
  ⟨e.display, none, none⟩

/-! ## Model of the Argon2 credential codec (user.rs uses the
`argon2` crate) -/

/-- Ideal functional model of the Argon2 digest: an injective function
of the salt and the password (collision resistance idealised as
injectivity). -/
def argonDigest (salt password : String) : String :=
  ⟨(salt ++ ":" ++ password).data.reverse⟩

/-- `argon2.hash_password(..).to_string()`: a PHC-style self-describing
hash string `$argon2$<salt>$<digest>`. -/
def hash_password (salt password : String) : String :=
  "$argon2$" ++ salt ++ "$" ++ argonDigest salt password

/-- Split a character list at its first `'$'`. -/
def splitAtDollar : List Char → Option (List Char × List Char)
  | [] => none
  | c :: l =>
      if c = '$' then some ([], l)
      else (splitAtDollar l).map fun p => (c :: p.1, p.2)

/-- `PasswordHash::new`: recover salt and digest from the PHC string;
`none` models a malformed encoded hash. -/
def parsePasswordHash (s : String) : Option (String × String) :=
  if s.data.take 8 = "$argon2$".data then
    (splitAtDollar (s.data.drop 8)).map fun p => (⟨p.1⟩, ⟨p.2⟩)
  else none

/-! ## `User` (src/models/user.rs) -/

structure User where
  id : String
  email : String
  password_hash : String
  first_name : String
  last_name : String
  pantry_id : Option String
  created_at : DateTime
  updated_at : DateTime
deriving DecidableEq, Repr

/-- `User::new`.  `now` models `Utc::now()` and `salt` the freshly
generated `SaltString`; hashing is total in the model, so the source's
`Err` arm cannot arise here. -/
def User.new (id email : String) (password : String)
    (first_name last_name : String) (salt : String) (now : DateTime) :
    Except String User :=
  .ok { id := id, email := email,
        password_hash := hash_password salt password,
        first_name := first_name, last_name := last_name,
        pantry_id := none, created_at := now, updated_at := now }

/-- `User::from_item`.  `now` models the `Utc::now()` fallback taken
when a timestamp is missing or unparseable.  Note the source reads the
optional pantry reference from the key `"pantry"`. -/
def User.from_item (now : DateTime) (item : AttrMap) : Option User := do
  let id ← item.getS "id"
  let email ← item.getS "email"
  let password_hash ← item.getS "password_hash"
  let first_name ← item.getS "first_name"
  let last_name ← item.getS "last_name"
  let pantry_id := item.getS "pantry"
  let created_at := ((item.getS "created_at").bind DateTime.parse).getD now
  let updated_at := ((item.getS "updated_at").bind DateTime.parse).getD now
  some { id := id, email := email, password_hash := password_hash,
         first_name := first_name, last_name := last_name,
         pantry_id := pantry_id, created_at := created_at,
         updated_at := updated_at }

/-- `User::to_item`.  The optional pantry reference is written (when
present) under the key `"pantry_id"`. -/
def User.to_item (u : User) : AttrMap :=
  let item := AttrMap.empty
  let item := item.insert "id" (.S u.id)
  let item := item.insert "email" (.S u.email)
  let item := item.insert "password_hash" (.S u.password_hash)
  let item := item.insert "first_name" (.S u.first_name)
  let item := item.insert "last_name" (.S u.last_name)
  let item := match u.pantry_id with
    | some pid => item.insert "pantry_id" (.S pid)
    | none => item
  let item := item.insert "created_at" (.S u.created_at.display)
  let item := item.insert "updated_at" (.S u.updated_at.display)
  item

/-- `User::verify_password`: parse the stored hash, return `false` when
it is malformed, otherwise recompute the digest with the stored salt
and compare. -/
def User.verify_password (u : User) (password : String) : Bool :=
  match parsePasswordHash u.password_hash with
  | none => false
  | some (salt, digest) => argonDigest salt password == digest

/-- `User::update_password`: re-hash with a fresh salt and refresh
`updated_at`; the model returns the updated user instead of mutating in
place. -/
def User.update_password (u : User) (password : String) (salt : String)
    (now : DateTime) : Except String User :=
  .ok { u with password_hash := hash_password salt password,
               updated_at := now }

/-! ## `Pantry` (src/models/pantry.rs) -/

inductive OptStatus where
  | T1
  | T2
  | T3
deriving DecidableEq, Repr

def OptStatus.to_string : OptStatus → String
  | .T1 => "T1"
  | .T2 => "T2"
  | .T3 => "T3"

/-- `OptStatus::from_string`. -/
def OptStatus.from_string (s : String) : Except AppError OptStatus :=
  if s = "T1" then .ok .T1
  else if s = "T2" then .ok .T2
  else if s = "T3" then .ok .T3
  else .error (.DatabaseError "Invalid opt status from pantry item")

/-- `serde_json::to_string::<OptStatus>`: with the derive's
`rename_all = "snake_case"`, variant `T1` serialises to the JSON text
`"t1"` — the quotes are part of the resulting Rust `String`. -/
def OptStatus.serde_json_string : OptStatus → String
  | .T1 => "\"t1\""
  | .T2 => "\"t2\""
  | .T3 => "\"t3\""

structure Address where
  street : String
  unit : Option String
  city : String
  state : String
  zipcode : String
deriving DecidableEq, Repr

structure Pantry where
  id : String
  name : String
  is_self_managed : String
  opt_status : OptStatus
  phone : String
  email : String
  address : Address
  created_at : DateTime
  updated_at : DateTime
deriving DecidableEq, Repr

/-- `Pantry::from_item`.  As in the source, the nested address is read
with `item_address.get("unit")?` — the `?` makes a missing `unit` key
abort the whole parse, while a present non-string `unit` merely becomes
`None` (`as_s().ok()` without `?`). -/
def Pantry.from_item (now : DateTime) (item : AttrMap) : Option Pantry := do
  let id ← item.getS "id"
  let name ← item.getS "name"
  let item_address ← (item "address").bind AttributeValue.as_m
  let street ← item_address.getS "street"
  let unitAttr ← item_address "unit"
  let unit := unitAttr.as_s
  let city ← item_address.getS "city"
  let state ← item_address.getS "state"
  let zipcode ← item_address.getS "zipcode"
  let address : Address := ⟨street, unit, city, state, zipcode⟩
  let is_self_managed ← item.getS "is_self_managed"
  let phone ← item.getS "phone"
  let email ← item.getS "email"
  let opt_status_str ← item.getS "opt_status"
  let opt_status ← (OptStatus.from_string opt_status_str).toOption
  let created_at := ((item.getS "created_at").bind DateTime.parse).getD now
  let updated_at := ((item.getS "updated_at").bind DateTime.parse).getD now
  some { id := id, name := name, address := address,
         is_self_managed := is_self_managed, phone := phone, email := email,
         opt_status := opt_status, created_at := created_at,
         updated_at := updated_at }

/-- `Pantry::to_item`.  The opt status is written via
`serde_json::to_string` (which cannot fail on this enum, hence the
`Option` is always `some`); an absent `unit` writes no key. -/
def Pantry.to_item (p : Pantry) : AttrMap :=
  let item := AttrMap.empty
  let address := AttrMap.empty
  let opt_status_string : Option String := some p.opt_status.serde_json_string
  let item := item.insert "id" (.S p.id)
  let item := item.insert "name" (.S p.name)
  let item := item.insert "is_self_managed" (.S p.is_self_managed)
  let item := item.insert "phone" (.S p.phone)
  let item := item.insert "email" (.S p.email)
  let address := address.insert "street" (.S p.address.street)
  let address := match p.address.unit with
    | some u => address.insert "unit" (.S u)
    | none => address
  let address := address.insert "city" (.S p.address.city)
  let address := address.insert "state" (.S p.address.state)
  let address := address.insert "zipcode" (.S p.address.zipcode)
  let item := item.insert "address" (.M address)
  let item := match opt_status_string with
    | some s => item.insert "opt_status" (.S s)
    | none => item
  let item := item.insert "created_at" (.S p.created_at.display)
  let item := item.insert "updated_at" (.S p.updated_at.display)
  item

/-! ## JWT issue/verify (src/auth/jwt.rs, over the `jsonwebtoken`
crate) -/

structure Claims where
  sub : String
  email : String
  exp : Nat
deriving DecidableEq, Repr

/-- A compact JWS as `jsonwebtoken` produces it: claims plus a MAC over
them keyed by the shared secret. -/
structure Token where
  claims : Claims
  sig : Nat
deriving DecidableEq, Repr

/-- Functional model of the HMAC: a keyed hash of the serialised
claims. -/
def jwtMac (secret : String) (c : Claims) : Nat :=
  (secret ++ "." ++ c.sub ++ "." ++ c.email ++ "." ++ toString c.exp).data.foldl
    (fun h ch => h * 131 + ch.toNat) 7

def jwtEncode (secret : String) (c : Claims) : Token :=
  ⟨c, jwtMac secret c⟩

inductive JwtError where
  | InvalidSignature
  | ExpiredSignature
deriving DecidableEq, Repr

def JwtError.message : JwtError → String
  | .InvalidSignature => "InvalidSignature"
  | .ExpiredSignature => "ExpiredSignature"

/-- `jsonwebtoken::decode` with `Validation::default()`: verify the MAC
first, then check `exp` against the clock with the default 60-second
leeway. -/
def jwtDecode (secret : String) (now : Nat) (t : Token) : Except JwtError Claims :=
  if t.sig ≠ jwtMac secret t.claims then .error .InvalidSignature
  else if t.claims.exp < now - 60 then .error .ExpiredSignature
  else .ok t.claims

/-- `create_token` (jwt.rs).  `now` is the epoch-seconds clock; the
`JWT_SECRET` env lookup is modelled by the `jwt_secret` parameter (the
source's env-failure arm names `AppError::EnvError`, a variant
src/error.rs does not define, and is outside every claim). -/
def create_token (jwt_secret : String) (now : Nat) (user_id email : String) :
    Except AppError Token :=
  let expiration := now + 24 * 3600
  let claims : Claims := { sub := user_id, email := email, exp := expiration }
  .ok (jwtEncode jwt_secret claims)

/-- `validate_token` (jwt.rs): every decode failure maps to
`Unauthorized`. -/
def validate_token (jwt_secret : String) (now : Nat) (token : Token) :
    Except AppError Claims :=
  match jwtDecode jwt_secret now token with
  | .error e => .error (.Unauthorized e.message)
  | .ok c => .ok c

/-! ## GraphQL resolvers (src/schema/mutation.rs, src/schema/query.rs)

`ctx_client` models `ctx.data::<Client>()`; the DynamoDB round trip is
the `Except String _` parameter (`.error msg` is a failed `send()`). -/

/-- `MutationRoot::create_user` (mutation.rs).  `uuid` models the
generated v4 id and `put_result` the `put_item` outcome.  The source
also passes `pantry_name` to `User::new`, which (in user.rs) has no
such parameter; the model keeps the five-field constructor.  The
`put_item` error is mapped into a GraphQL error but the `Result` is
never propagated — there is no `?` — so the function returns
`Ok(user)` regardless of `put_result`. -/
def create_user (ctx_client : Option Unit) (uuid : String)
    (email password first_name last_name : String) (salt : String)
    (now : DateTime) (put_result : Except String Unit) : Except GqlError User :=
  match ctx_client with
  | none =>
      .error ((AppError.InternalServerError
        "Failed to access application db_client").to_graphql_error)
  | some _ =>
    match User.new uuid email password first_name last_name salt now with
    | .error e => .error (gqlOfDisplay (.DatabaseError e))
    | .ok user =>
      let _item := user.to_item
      let _put : Except GqlError Unit :=
        put_result.mapError fun err =>
          (AppError.DatabaseError ("Failed to create user: " ++ err)).to_graphql_error
      .ok user

/-- `QueryRoot::user_by_id` (query.rs).  `resp` is the `get_item`
outcome: a transport failure or an optional item.  The zero-result arm
propagates a bare `AppError::DatabaseError` through `?` (no
`to_graphql_error`), the unmappable-item arm calls
`to_graphql_error`. -/
def user_by_id (ctx_client : Option Unit)
    (resp : Except String (Option AttrMap)) (now : DateTime) :
    Except GqlError User :=
  match ctx_client with
  | none =>
      .error ((AppError.InternalServerError
        "Failed to access application db_client").to_graphql_error)
  | some _ =>
    match resp with
    | .error _ =>
        .error ((AppError.DatabaseError
          "Failed to get user by id from db").to_graphql_error)
    | .ok oitem =>
      match oitem with
      | none => .error (gqlOfDisplay (.DatabaseError "No user found with that ID"))
      | some item =>
        match User.from_item now item with
        | some u => .ok u
        | none =>
            .error ((AppError.DatabaseError
              "No user found with that ID").to_graphql_error)

/-- `QueryRoot::user_by_email` (query.rs).  `resp` is the secondary
index `query` outcome: a transport failure or a list of items; the
first item, when any, is mapped. -/
def user_by_email (ctx_client : Option Unit)
    (resp : Except String (List AttrMap)) (now : DateTime) :
    Except GqlError User :=
  match ctx_client with
  | none =>
      .error ((AppError.InternalServerError
        "Failed to access application db_client").to_graphql_error)
  | some _ =>
    match resp with
    | .error _ =>
        .error ((AppError.DatabaseError
          "Failed to get user by email from db").to_graphql_error)
    | .ok items =>
      match items.head? with
      | none =>
          .error ((AppError.DatabaseError
            "No user found with that email address").to_graphql_error)
      | some first_item =>
        match User.from_item now first_item with
        | some u => .ok u
        | none =>
            .error ((AppError.DatabaseError
              "No user found with that email address").to_graphql_error)

/-! ## Auxiliary definitions for the statements -/

/-- Look a key up inside the nested `address` map of a Pantry item. -/
def addressKey (item : AttrMap) (k : String) : Option AttributeValue :=
  ((item "address").bind AttributeValue.as_m).bind fun m => m k

/-- Skip a run of decimal digits. -/
def dropDigits : List Char → List Char
  | [] => []
  | c :: l => if c.isDigit then dropDigits l else c :: l

/-- RFC-3339 numeric offset or `Z`/`z` terminating the string. -/
def rfc3339Offset : List Char → Option Unit
  | ['Z'] => some ()
  | ['z'] => some ()
  | c :: l =>
      if c = '+' ∨ c = '-' then do
        let (_, l) ← readDigits 2 0 l
        let l ← expectChar ':' l
        let (_, l) ← readDigits 2 0 l
        match l with
        | [] => some ()
        | _ => none
      else none
  | [] => none

/-- `HH:MM:SS`, optional fractional seconds, then the offset. -/
def rfc3339Time (l : List Char) : Option Unit := do
  let (_, l) ← readDigits 2 0 l
  let l ← expectChar ':' l
  let (_, l) ← readDigits 2 0 l
  let l ← expectChar ':' l
  let (_, l) ← readDigits 2 0 l
  let l := match l with
           | '.' :: r => dropDigits r
           | _ => l
  rfc3339Offset l

/-- Refinement predicate following the spec's words: the string is an
RFC-3339 / ISO-8601 date-time (read generously: lowercase `t`/`z` and
even a space separator are accepted, fractional seconds allowed, and
the zone may be `Z` or a numeric offset — which is where RFC 3339
stops: a trailing zone *name* such as `UTC` is not in the grammar). -/
def isRfc3339 (s : String) : Bool :=
  (Option.isSome <| do
    let l := s.data
    let (_, l) ← readDigits 4 0 l
    let l ← expectChar '-' l
    let (_, l) ← readDigits 2 0 l
    let l ← expectChar '-' l
    let (_, l) ← readDigits 2 0 l
    let l ← (match l with
             | c :: r => if c = 'T' ∨ c = 't' ∨ c = ' ' then some r else none
             | [] => none)
    rfc3339Time l)

/-! ## Concrete sample values used by witnesses and counterexamples -/

/-- A fixed, valid timestamp. -/
def sampleDt : DateTime := ⟨2025, 6, 1, 12, 30, 45⟩

def sampleUserWithPantry : User :=
  { id := "u1", email := "a@b.com",
    password_hash := hash_password "c2FsdA" "hunter2",
    first_name := "Ada", last_name := "L",
    pantry_id := some "p1", created_at := sampleDt, updated_at := sampleDt }

def samplePantryNoUnit : Pantry :=
  { id := "p1", name := "North Pantry", is_self_managed := "true",
    opt_status := .T1, phone := "555-0100", email := "np@x.org",
    address := { street := "1 Main St", unit := none, city := "Marquette",
                 state := "MI", zipcode := "49855" },
    created_at := sampleDt, updated_at := sampleDt }

/-- A well-formed Pantry item except that `opt_status` is `"T9"`. -/
def badOptStatusItem : AttrMap :=
  let address := AttrMap.empty
  let address := address.insert "street" (.S "1 Main St")
  let address := address.insert "unit" (.S "2B")
  let address := address.insert "city" (.S "Marquette")
  let address := address.insert "state" (.S "MI")
  let address := address.insert "zipcode" (.S "49855")
  let item := AttrMap.empty
  let item := item.insert "id" (.S "p1")
  let item := item.insert "name" (.S "North Pantry")
  let item := item.insert "is_self_managed" (.S "true")
  let item := item.insert "phone" (.S "555-0100")
  let item := item.insert "email" (.S "np@x.org")
  let item := item.insert "address" (.M address)
  let item := item.insert "opt_status" (.S "T9")
  let item := item.insert "created_at" (.S "2025-06-01 12:30:45 UTC")
  let item := item.insert "updated_at" (.S "2025-06-01 12:30:45 UTC")
  item

/-- A User item whose `created_at` is unparseable and whose
`updated_at` is missing altogether. -/
def malformedTimestampUserItem : AttrMap :=
  let item := AttrMap.empty
  let item := item.insert "id" (.S "u1")
  let item := item.insert "email" (.S "a@b.com")
  let item := item.insert "password_hash" (.S "h")
  let item := item.insert "first_name" (.S "Ada")
  let item := item.insert "last_name" (.S "L")
  let item := item.insert "created_at" (.S "not-a-timestamp")
  item

/-- The user `malformedTimestampUserItem` maps to when `Utc::now()` is
`sampleDt`. -/
def fallbackUser : User :=
  { id := "u1", email := "a@b.com", password_hash := "h",
    first_name := "Ada", last_name := "L", pantry_id := none,
    created_at := sampleDt, updated_at := sampleDt }

/-- The user `User::new` builds for the witness inputs. -/
def sampleNewUser : User :=
  { id := "u1", email := "a@b.com",
    password_hash := hash_password "c2FsdA" "hunter2",
    first_name := "Ada", last_name := "L",
    pantry_id := none, created_at := sampleDt, updated_at := sampleDt }

/-- `sampleUserWithPantry` after `update_password` with salt
`"salt2"`. -/
def updatedSampleUser : User :=
  { sampleUserWithPantry with
      password_hash := hash_password "salt2" "newpw", updated_at := sampleDt }

/-! ## Theorems -/

theorem digitChar_isDigit : ∀ k, k < 10 → (Nat.digitChar k).isDigit = true := by
  decide

theorem digitChar_toNat : ∀ k, k < 10 → (Nat.digitChar k).toNat - 48 = k := by
  decide

theorem readDigits_padDigits (w : Nat) :
    ∀ (acc n : Nat) (rest : List Char), n < 10 ^ w →
      readDigits w acc (padDigits w n ++ rest) = some (acc * 10 ^ w + n, rest) := by
  induction w with
  | zero =>
      intro acc n rest h
      have hn : n = 0 := Nat.lt_one_iff.mp (by simpa using h)
      subst hn
      simp [padDigits, readDigits]
  | succ w ih =>
      intro acc n rest h
      have hq : n / 10 ^ w < 10 := by
        apply Nat.div_lt_of_lt_mul
        calc n < 10 ^ (w + 1) := h
          _ = 10 ^ w * 10 := by ring
      have h1 := digitChar_isDigit _ hq
      have h2 := digitChar_toNat _ hq
      have hr : n % 10 ^ w < 10 ^ w := Nat.mod_lt _ (Nat.pos_pow_of_pos w (by omega))
      have hmod := Nat.div_add_mod n (10 ^ w)
      simp only [padDigits, readDigits, List.cons_append, h1, if_true, h2,
        List.append_eq]
      rw [ih (acc * 10 + n / 10 ^ w) (n % 10 ^ w) rest hr]
      congr 1
      congr 1
      calc (acc * 10 + n / 10 ^ w) * 10 ^ w + n % 10 ^ w
          = acc * (10 ^ w * 10) + (10 ^ w * (n / 10 ^ w) + n % 10 ^ w) := by ring
        _ = acc * 10 ^ (w + 1) + n := by rw [hmod, pow_succ]

theorem DateTime.parseChars_displayChars (d : DateTime) (h : d.Valid) :
    DateTime.parseChars d.displayChars = some d := by
  obtain ⟨hy, hmo1, hmo2, hda1, hda2, hh, hmi, hs⟩ := h
  unfold DateTime.displayChars DateTime.parseChars
  rw [readDigits_padDigits 4 0 d.year _ (by omega)]
  simp only [Option.bind_eq_bind, Option.bind, expectChar, expectSep, zoneTail,
    reduceIte, true_or, if_true, Nat.zero_mul, Nat.zero_add]
  rw [readDigits_padDigits 2 0 d.month _ (by omega)]
  simp only [Option.bind, expectChar, expectSep, zoneTail, reduceIte, true_or,
    if_true, Nat.zero_mul, Nat.zero_add]
  rw [readDigits_padDigits 2 0 d.day _ (by omega)]
  simp only [Option.bind, expectChar, expectSep, zoneTail, reduceIte, true_or,
    if_true, Nat.zero_mul, Nat.zero_add]
  rw [readDigits_padDigits 2 0 d.hour _ (by omega)]
  simp only [Option.bind, expectChar, expectSep, zoneTail, reduceIte, true_or,
    if_true, Nat.zero_mul, Nat.zero_add]
  rw [readDigits_padDigits 2 0 d.minute _ (by omega)]
  simp only [Option.bind, expectChar, expectSep, zoneTail, reduceIte, true_or,
    if_true, Nat.zero_mul, Nat.zero_add]
  rw [readDigits_padDigits 2 0 d.second _ (by omega)]
  simp only [Option.bind, expectChar, expectSep, zoneTail, reduceIte, true_or,
    if_true, Nat.zero_mul, Nat.zero_add]
  rw [if_pos ⟨hmo1, hmo2, hda1, hda2, hh, hmi, hs⟩]

theorem DateTime.parse_display (d : DateTime) (h : d.Valid) :
    DateTime.parse d.display = some d :=
  DateTime.parseChars_displayChars d h

/-- What `from_item ∘ to_item` actually computes on a `User` whose
timestamps are in range: everything survives except the pantry
reference, because `to_item` writes it under `"pantry_id"` while
`from_item` reads `"pantry"`. -/
theorem User.from_item_to_item (u : User) (now : DateTime)
    (hc : u.created_at.Valid) (hu : u.updated_at.Valid) :
    User.from_item now (User.to_item u) = some { u with pantry_id := none } := by
  have hpc := DateTime.parse_display u.created_at hc
  have hpu := DateTime.parse_display u.updated_at hu
  cases hp : u.pantry_id with
  | none =>
      simp [User.from_item, User.to_item, AttrMap.getS, AttrMap.insert,
        AttrMap.empty, AttributeValue.as_s, hp, hpc, hpu]
  | some pid =>
      simp [User.from_item, User.to_item, AttrMap.getS, AttrMap.insert,
        AttrMap.empty, AttributeValue.as_s, hp, hpc, hpu]

theorem splitAtDollar_append (salt rest : List Char) (h : '$' ∉ salt) :
    splitAtDollar (salt ++ '$' :: rest) = some (salt, rest) := by
  induction salt with
  | nil => simp [splitAtDollar]
  | cons c l ih =>
      rw [List.mem_cons, not_or] at h
      obtain ⟨h1, h2⟩ := h
      simp only [List.cons_append, splitAtDollar, List.append_eq]
      rw [if_neg fun hc => h1 hc.symm]
      rw [ih h2]
      rfl

theorem parsePasswordHash_hash_password (salt password : String)
    (h : '$' ∉ salt.data) :
    parsePasswordHash (hash_password salt password) =
      some (salt, argonDigest salt password) := by
  unfold parsePasswordHash hash_password
  have hdollar : "$".data = ['$'] := rfl
  have hdata : ("$argon2$" ++ salt ++ "$" ++ argonDigest salt password).data =
      "$argon2$".data ++ (salt.data ++ '$' :: (argonDigest salt password).data) := by
    simp [hdollar, List.append_assoc]
  rw [hdata]
  rw [show (8 : Nat) = "$argon2$".data.length from rfl, List.take_left,
    List.drop_left]
  rw [if_pos rfl]
  rw [splitAtDollar_append _ _ h]
  rfl

theorem argonDigest_inj (salt : String) {p q : String}
    (h : argonDigest salt p = argonDigest salt q) : p = q := by
  unfold argonDigest at h
  have h1 : ((salt ++ ":" ++ p).data).reverse = ((salt ++ ":" ++ q).data).reverse := by
    injection h
  have h2 : (salt ++ ":" ++ p).data = (salt ++ ":" ++ q).data :=
    List.reverse_inj.mp h1
  rw [String.data_append, String.data_append] at h2
  have h3 : p.data = q.data := List.append_cancel_left h2
  cases p
  cases q
  exact congrArg String.mk h3

/-- C1: for a `User` with a pantry reference, `from_item(to_item(u))`
is not `u`: the optional field is written as `"pantry_id"` but read
back from the key `"pantry"`, so the value is silently dropped (the
rest of the record, stable field names included, survives). -/
theorem user_roundtrip_drops_pantry_id (u : User) (now : DateTime) (pid : String)
    (hc : u.created_at.Valid) (hu : u.updated_at.Valid)
    (hp : u.pantry_id = some pid) :
    User.from_item now (User.to_item u) = some { u with pantry_id := none } ∧
    User.from_item now (User.to_item u) ≠ some u := by
  have h := User.from_item_to_item u now hc hu
  refine ⟨h, ?_⟩
  rw [h]
  intro hEq
  injection hEq with hEq
  have := congrArg User.pantry_id hEq
  rw [hp] at this
  simp at this

/-- Witness for `user_roundtrip_drops_pantry_id` at a concrete user. -/
theorem user_roundtrip_drops_pantry_id_witness :
    sampleUserWithPantry.created_at.Valid ∧
    sampleUserWithPantry.pantry_id = some "p1" ∧
    (User.from_item sampleDt (User.to_item sampleUserWithPantry) =
        some { sampleUserWithPantry with pantry_id := none } ∧
      User.from_item sampleDt (User.to_item sampleUserWithPantry) ≠
        some sampleUserWithPantry) :=
  ⟨by decide, rfl,
    user_roundtrip_drops_pantry_id sampleUserWithPantry sampleDt "p1"
      (by decide) (by decide) rfl⟩

/-- C2: for a `Pantry` whose `address.unit` is `None`, `to_item` indeed
writes no `unit` key into the nested address map, but `from_item` then
rejects the whole item (the source reads `item_address.get("unit")?`,
whose `?` makes the absent key fatal), so the round trip yields `none`
rather than the pantry. -/
theorem pantry_roundtrip_fails_without_unit (p : Pantry) (now : DateTime)
    (hunit : p.address.unit = none) :
    addressKey (Pantry.to_item p) "unit" = none ∧
    Pantry.from_item now (Pantry.to_item p) = none := by
  constructor
  · simp [addressKey, Pantry.to_item, AttrMap.insert, AttrMap.empty,
      AttributeValue.as_m, hunit]
  · simp [Pantry.from_item, Pantry.to_item, AttrMap.getS, AttrMap.insert,
      AttrMap.empty, AttributeValue.as_s, AttributeValue.as_m, hunit]

/-- Witness for `pantry_roundtrip_fails_without_unit` at a concrete
pantry. -/
theorem pantry_roundtrip_fails_without_unit_witness :
    samplePantryNoUnit.address.unit = none ∧
    (addressKey (Pantry.to_item samplePantryNoUnit) "unit" = none ∧
      Pantry.from_item sampleDt (Pantry.to_item samplePantryNoUnit) = none) :=
  ⟨rfl, pantry_roundtrip_fails_without_unit samplePantryNoUnit sampleDt rfl⟩

/-- C3: `Pantry::to_item` does not store the canonical short codes
`"T1"`/`"T2"`/`"T3"`: it stores `serde_json::to_string`'s output, which
under `rename_all = "snake_case"` is the quoted lowercase JSON text
(`"\"t1\""` …) — a value `OptStatus::from_string` itself rejects. -/
theorem pantry_opt_status_not_shortcode (p : Pantry) :
    (Pantry.to_item p).getS "opt_status" = some p.opt_status.serde_json_string ∧
    (∀ os : OptStatus, os.serde_json_string ≠ "T1" ∧
        os.serde_json_string ≠ "T2" ∧ os.serde_json_string ≠ "T3") ∧
    (∀ os : OptStatus, (OptStatus.from_string os.serde_json_string).toOption = none) := by
  refine ⟨?_, fun os => by cases os <;> exact ⟨by decide, by decide, by decide⟩,
    fun os => by cases os <;> rfl⟩
  simp [Pantry.to_item, AttrMap.getS, AttrMap.insert, AttrMap.empty,
    AttributeValue.as_s]

/-- C4: `create_user` maps the `put_item` error but never propagates
it — there is no `?` on the put — so it returns the user even when the
storage write failed (and for every other put outcome alike). -/
theorem create_user_ignores_put_failure (uuid email password fn ln salt : String)
    (now : DateTime) (put_result : Except String Unit) :
    create_user (some ()) uuid email password fn ln salt now put_result =
      .ok { id := uuid, email := email,
            password_hash := hash_password salt password,
            first_name := fn, last_name := ln, pantry_id := none,
            created_at := now, updated_at := now } := rfl

/-- C5 counterexample: a zero-result `user_by_id` lookup surfaces as a
`DatabaseError`-derived error (no `NOT_FOUND` code), not as the
distinct `NotFound` kind the spec promises. -/
theorem lookup_zero_result_not_notfound :
    user_by_id (some ()) (.ok none) sampleDt =
      .error (gqlOfDisplay (.DatabaseError "No user found with that ID")) ∧
    (gqlOfDisplay (.DatabaseError "No user found with that ID")).code ≠
      some "NOT_FOUND" ∧
    ((AppError.NotFound "x").to_graphql_error).code = some "NOT_FOUND" :=
  ⟨rfl, by decide, rfl⟩

/-- C5 (amended): both lookups report a zero-result exactly like a
transport failure — via `AppError::DatabaseError` — differing only in
the message text; neither is the `NotFound` kind. -/
theorem lookup_zero_result_database_error_kind :
    (∀ now, user_by_id (some ()) (.ok none) now =
        .error (gqlOfDisplay (.DatabaseError "No user found with that ID"))) ∧
    (∀ e now, user_by_id (some ()) (.error e) now =
        .error ((AppError.DatabaseError
          "Failed to get user by id from db").to_graphql_error)) ∧
    (∀ now, user_by_email (some ()) (.ok []) now =
        .error ((AppError.DatabaseError
          "No user found with that email address").to_graphql_error)) ∧
    (∀ e now, user_by_email (some ()) (.error e) now =
        .error ((AppError.DatabaseError
          "Failed to get user by email from db").to_graphql_error)) ∧
    ((AppError.DatabaseError "No user found with that ID").to_graphql_error).code ≠
      some "NOT_FOUND" :=
  ⟨fun _ => rfl, fun _ _ => rfl, fun _ => rfl, fun _ _ => rfl, by decide⟩

/-- C6: `create_token` embeds the subject id, the email and the
absolute expiry `now + 24 h`; `validate_token` turns an invalid
signature or an expired claim into `Unauthorized` (it is total, so it
never panics), and accepts an untampered token inside the validity
window, returning the original subject id and email. -/
theorem token_issue_verify :
    (∀ secret now uid em,
        create_token secret now uid em =
          .ok (jwtEncode secret ⟨uid, em, now + 24 * 3600⟩)) ∧
    (∀ secret now t, t.sig ≠ jwtMac secret t.claims →
        validate_token secret now t = .error (.Unauthorized "InvalidSignature")) ∧
    (∀ secret now t, t.sig = jwtMac secret t.claims →
        t.claims.exp < now - 60 →
        validate_token secret now t = .error (.Unauthorized "ExpiredSignature")) ∧
    (∀ secret issued now uid em t,
        create_token secret issued uid em = .ok t →
        now ≤ issued + 24 * 3600 →
        validate_token secret now t = .ok ⟨uid, em, issued + 24 * 3600⟩) := by
  refine ⟨fun _ _ _ _ => rfl, ?_, ?_, ?_⟩
  · intro secret now t h
    simp [validate_token, jwtDecode, h, JwtError.message]
  · intro secret now t hsig hexp
    simp [validate_token, jwtDecode, hsig, hexp, JwtError.message]
  · intro secret issued now uid em t hcreate hwin
    injection hcreate with hcreate
    subst hcreate
    have hne : ¬(issued + 24 * 3600 < now - 60) := by omega
    simp [validate_token, jwtDecode, jwtEncode, hne]

/-- Witness for `token_issue_verify` at concrete inputs: a tampered
signature, an expired token and a fresh token. -/
theorem token_issue_verify_witness :
    ((⟨⟨"u1", "a@b.com", 1000 + 24 * 3600⟩, 0⟩ : Token).sig ≠
        jwtMac "topsecret" (⟨⟨"u1", "a@b.com", 1000 + 24 * 3600⟩, 0⟩ : Token).claims) ∧
    validate_token "topsecret" 5000 ⟨⟨"u1", "a@b.com", 1000 + 24 * 3600⟩, 0⟩ =
      .error (.Unauthorized "InvalidSignature") ∧
    create_token "topsecret" 1000 "u1" "a@b.com" =
      .ok (jwtEncode "topsecret" ⟨"u1", "a@b.com", 1000 + 24 * 3600⟩) ∧
    validate_token "topsecret" 200000
        (jwtEncode "topsecret" ⟨"u1", "a@b.com", 1000 + 24 * 3600⟩) =
      .error (.Unauthorized "ExpiredSignature") ∧
    (5000 ≤ 1000 + 24 * 3600) ∧
    validate_token "topsecret" 5000
        (jwtEncode "topsecret" ⟨"u1", "a@b.com", 1000 + 24 * 3600⟩) =
      .ok ⟨"u1", "a@b.com", 1000 + 24 * 3600⟩ :=
  ⟨by decide,
    token_issue_verify.2.1 "topsecret" 5000 _ (by decide),
    token_issue_verify.1 "topsecret" 1000 "u1" "a@b.com",
    token_issue_verify.2.2.1 "topsecret" 200000 _ rfl (by decide),
    by decide,
    token_issue_verify.2.2.2 "topsecret" 1000 5000 "u1" "a@b.com" _ rfl (by decide)⟩

/-- C7: a user freshly created with password `p` verifies `p` and
rejects any `q ≠ p` (ideal-hash model), and a user whose stored hash
is malformed verifies nothing — `verify_password` just returns
`false`. -/
theorem verify_password_correct :
    (∀ (id em pw fn ln salt : String) (now : DateTime) (u : User),
        ('$' ∉ salt.data) →
        User.new id em pw fn ln salt now = .ok u →
        u.verify_password pw = true) ∧
    (∀ (id em pw fn ln salt : String) (now : DateTime) (u : User) (q : String),
        ('$' ∉ salt.data) → q ≠ pw →
        User.new id em pw fn ln salt now = .ok u →
        u.verify_password q = false) ∧
    (∀ (u : User) (pw : String), parsePasswordHash u.password_hash = none →
        u.verify_password pw = false) := by
  refine ⟨?_, ?_, ?_⟩
  · intro id em pw fn ln salt now u hsalt hnew
    injection hnew with hnew
    subst hnew
    simp [User.verify_password, parsePasswordHash_hash_password _ _ hsalt]
  · intro id em pw fn ln salt now u q hsalt hq hnew
    injection hnew with hnew
    subst hnew
    simp only [User.verify_password, parsePasswordHash_hash_password _ _ hsalt]
    rw [beq_eq_false_iff_ne]
    exact fun hEq => hq (argonDigest_inj salt hEq)
  · intro u pw h
    simp [User.verify_password, h]

/-- Witness for `verify_password_correct`: a concrete fresh user and a
concrete malformed hash. -/
theorem verify_password_correct_witness :
    ('$' ∉ "c2FsdA".data) ∧ ("wrong" ≠ "hunter2") ∧
    User.new "u1" "a@b.com" "hunter2" "Ada" "L" "c2FsdA" sampleDt =
      .ok sampleNewUser ∧
    sampleNewUser.verify_password "hunter2" = true ∧
    sampleNewUser.verify_password "wrong" = false ∧
    parsePasswordHash fallbackUser.password_hash = none ∧
    fallbackUser.verify_password "word" = false :=
  ⟨by decide, by decide, rfl,
    verify_password_correct.1 "u1" "a@b.com" "hunter2" "Ada" "L" "c2FsdA"
      sampleDt sampleNewUser (by decide) rfl,
    verify_password_correct.2.1 "u1" "a@b.com" "hunter2" "Ada" "L" "c2FsdA"
      sampleDt sampleNewUser "wrong" (by decide) (by decide) rfl,
    rfl,
    verify_password_correct.2.2 fallbackUser "word" rfl⟩

/-- C8 counterexample: the stored timestamp string is chrono's default
`Display` output `YYYY-MM-DD HH:MM:SS UTC`, which is not an RFC-3339 /
ISO-8601 date-time (the trailing zone name `UTC` is outside the
grammar), while a genuine RFC-3339 string is accepted by the same
predicate. -/
theorem timestamps_not_rfc3339 :
    (User.to_item sampleUserWithPantry).getS "created_at" =
      some "2025-06-01 12:30:45 UTC" ∧
    isRfc3339 "2025-06-01 12:30:45 UTC" = false ∧
    isRfc3339 "2025-06-01T12:30:45Z" = true := by
  refine ⟨by decide, by decide, by decide⟩

/-- C8 (amended): the timestamps are serialised as chrono's default
`Display` strings, which `from_item` parses back exactly (second
precision), and a missing or malformed timestamp falls back to "now"
without failing the record. -/
theorem timestamps_roundtrip_and_fallback :
    (∀ (u : User) (now : DateTime), u.created_at.Valid → u.updated_at.Valid →
        ∃ v, User.from_item now (User.to_item u) = some v ∧
          v.created_at = u.created_at ∧ v.updated_at = u.updated_at) ∧
    (∀ (item : AttrMap) (now : DateTime) (u : User),
        (item.getS "created_at").bind DateTime.parse = none →
        User.from_item now item = some u → u.created_at = now) ∧
    (∀ (item : AttrMap) (now : DateTime) (u : User),
        (item.getS "updated_at").bind DateTime.parse = none →
        User.from_item now item = some u → u.updated_at = now) := by
  refine ⟨?_, ?_, ?_⟩
  · intro u now hc hu
    exact ⟨{ u with pantry_id := none },
      User.from_item_to_item u now hc hu, rfl, rfl⟩
  · intro item now u hnone hsome
    simp only [User.from_item, Option.bind_eq_bind, Option.bind_eq_some] at hsome
    obtain ⟨id, hid, em, hem, ph, hph, fn, hfn, ln, hln, hsome⟩ := hsome
    rw [hnone] at hsome
    injection hsome with hsome
    rw [← hsome]
    rfl
  · intro item now u hnone hsome
    simp only [User.from_item, Option.bind_eq_bind, Option.bind_eq_some] at hsome
    obtain ⟨id, hid, em, hem, ph, hph, fn, hfn, ln, hln, hsome⟩ := hsome
    rw [hnone] at hsome
    injection hsome with hsome
    rw [← hsome]
    rfl

/-- Witness for `timestamps_roundtrip_and_fallback`: the sample user
round-trips its timestamps, and the malformed item falls back to
`now`. -/
theorem timestamps_roundtrip_and_fallback_witness :
    sampleDt.Valid ∧
    (∃ v, User.from_item sampleDt (User.to_item sampleUserWithPantry) = some v ∧
        v.created_at = sampleUserWithPantry.created_at ∧
        v.updated_at = sampleUserWithPantry.updated_at) ∧
    ((malformedTimestampUserItem.getS "created_at").bind DateTime.parse = none) ∧
    User.from_item sampleDt malformedTimestampUserItem = some fallbackUser ∧
    fallbackUser.created_at = sampleDt ∧ fallbackUser.updated_at = sampleDt :=
  ⟨by decide,
    timestamps_roundtrip_and_fallback.1 sampleUserWithPantry sampleDt
      (by decide) (by decide),
    by decide, by decide,
    timestamps_roundtrip_and_fallback.2.1 malformedTimestampUserItem sampleDt
      fallbackUser (by decide) (by decide),
    timestamps_roundtrip_and_fallback.2.2 malformedTimestampUserItem sampleDt
      fallbackUser (by decide) (by decide)⟩

/-- C9: `Pantry::from_item` on any item whose `opt_status` string is
none of `"T1"`, `"T2"`, `"T3"` yields no pantry at all — never a
defaulted one. -/
theorem pantry_from_item_rejects_unknown_opt_status (item : AttrMap)
    (now : DateTime) (s : String) (hs : item.getS "opt_status" = some s)
    (h1 : s ≠ "T1") (h2 : s ≠ "T2") (h3 : s ≠ "T3") :
    Pantry.from_item now item = none := by
  have hos : (OptStatus.from_string s).toOption = none := by
    unfold OptStatus.from_string
    rw [if_neg h1, if_neg h2, if_neg h3]
    rfl
  cases hres : Pantry.from_item now item with
  | none => rfl
  | some p =>
      exfalso
      unfold Pantry.from_item at hres
      obtain ⟨id, hid, hres⟩ := Option.bind_eq_some.mp hres
      obtain ⟨name, hname, hres⟩ := Option.bind_eq_some.mp hres
      obtain ⟨addr, haddr, hres⟩ := Option.bind_eq_some.mp hres
      obtain ⟨street, hstreet, hres⟩ := Option.bind_eq_some.mp hres
      obtain ⟨unitA, hunitA, hres⟩ := Option.bind_eq_some.mp hres
      obtain ⟨city, hcity, hres⟩ := Option.bind_eq_some.mp hres
      obtain ⟨st, hst, hres⟩ := Option.bind_eq_some.mp hres
      obtain ⟨zip, hzip, hres⟩ := Option.bind_eq_some.mp hres
      obtain ⟨ism, hism, hres⟩ := Option.bind_eq_some.mp hres
      obtain ⟨ph, hph, hres⟩ := Option.bind_eq_some.mp hres
      obtain ⟨em, hem, hres⟩ := Option.bind_eq_some.mp hres
      obtain ⟨oss, hoss, hres⟩ := Option.bind_eq_some.mp hres
      obtain ⟨os, hparse, hres⟩ := Option.bind_eq_some.mp hres
      rw [hs] at hoss
      injection hoss with hoss
      subst hoss
      rw [hos] at hparse
      exact Option.noConfusion hparse

/-- Witness for `pantry_from_item_rejects_unknown_opt_status` at the
concrete `"T9"` item. -/
theorem pantry_rejects_unknown_opt_status_witness :
    badOptStatusItem.getS "opt_status" = some "T9" ∧
    Pantry.from_item sampleDt badOptStatusItem = none :=
  ⟨rfl, pantry_from_item_rejects_unknown_opt_status badOptStatusItem sampleDt
    "T9" rfl (by decide) (by decide) (by decide)⟩

/-- C10: a successful `update_password` changes only `password_hash`
and `updated_at`; all the other fields are untouched. -/
theorem update_password_frame (u : User) (password salt : String)
    (now : DateTime) (u' : User)
    (h : User.update_password u password salt now = .ok u') :
    u'.id = u.id ∧ u'.email = u.email ∧ u'.first_name = u.first_name ∧
    u'.last_name = u.last_name ∧ u'.pantry_id = u.pantry_id ∧
    u'.created_at = u.created_at ∧
    u'.password_hash = hash_password salt password ∧ u'.updated_at = now := by
  injection h with h
  subst h
  exact ⟨rfl, rfl, rfl, rfl, rfl, rfl, rfl, rfl⟩

/-- Witness for `update_password_frame` at a concrete user. -/
theorem update_password_frame_witness :
    updatedSampleUser.id = sampleUserWithPantry.id ∧
    updatedSampleUser.email = sampleUserWithPantry.email ∧
    updatedSampleUser.first_name = sampleUserWithPantry.first_name ∧
    updatedSampleUser.last_name = sampleUserWithPantry.last_name ∧
    updatedSampleUser.pantry_id = sampleUserWithPantry.pantry_id ∧
    updatedSampleUser.created_at = sampleUserWithPantry.created_at ∧
    updatedSampleUser.password_hash = hash_password "salt2" "newpw" ∧
    updatedSampleUser.updated_at = sampleDt :=
  update_password_frame sampleUserWithPantry "newpw" "salt2" sampleDt
    updatedSampleUser rfl

end UwPantry
